import Mathlib

/-!
Verification of the work-order data layer of the technician-work-orders
repository: the record store (src/data/workOrderStore.ts) and the
Zod-validated RPC service layer built on top of it.
-/

namespace WorkOrders

/-! Untyped JSON layer.  The backing file holds arbitrary JSON; the store
parses it without any per-element validation. -/

/-- Shallow embedding of a parsed JSON value. -/
inductive Json where
  | null : Json
  | bool (b : Bool) : Json
  | num (n : Int) : Json
  | str (s : String) : Json
  | arr (elems : List Json) : Json
  | obj (fields : List (String × Json)) : Json
deriving Repr

/-- State of the backing file as observed by a single store call. -/
inductive FileState where
  | missing : FileState
  | malformed : FileState
  | unreadable : FileState
  | stored (content : Json) : FileState
deriving Repr

/-- Errors a store operation can raise. -/
inductive StoreErr where
  | invalidFormat : StoreErr
  | ioFailure : StoreErr
deriving Repr, DecidableEq

/-- Models writeWorkOrders: serializes the full list back to the file. -/
def writeWorkOrders (orders : List Json) : FileState :=
  FileState.stored (Json.arr orders)

/-- Models readWorkOrders (workOrderStore.ts lines 20-38).  A missing file
(ENOENT) or unparseable content (SyntaxError) is caught: the store writes an
empty array and returns the empty list.  Content parsing to a non-array value
raises a plain Error, which the catch clause does not recognise and rethrows.
Any other read failure also rethrows.  Returns the result together with the
file state after the call. -/
def readWorkOrders : FileState → Except StoreErr (List Json) × FileState
  | FileState.missing => (Except.ok [], writeWorkOrders [])
  | FileState.malformed => (Except.ok [], writeWorkOrders [])
  | FileState.unreadable => (Except.error StoreErr.ioFailure, FileState.unreadable)
  | FileState.stored (Json.arr elems) => (Except.ok elems, FileState.stored (Json.arr elems))
  | FileState.stored v => (Except.error StoreErr.invalidFormat, FileState.stored v)

/-- Models getAll: returns readWorkOrders verbatim. -/
def getAll (fs : FileState) : Except StoreErr (List Json) × FileState :=
  readWorkOrders fs

/-- Models the comparison order.id === id on a raw JSON element: property
access on a non-object yields no string, and === with a string is true only
for an equal string value. -/
def jsonIdMatches (o : Json) (id : String) : Bool :=
  match o with
  | Json.obj fields =>
      match fields.lookup "id" with
      | some (Json.str s) => s == id
      | _ => false
  | _ => false

/-- Models getById at the file level: reads all orders, then a linear find
for the first element whose id field equals the given id. -/
def getByIdFile (fs : FileState) (id : String) : Except StoreErr (Option Json) × FileState :=
  match readWorkOrders fs with
  | (Except.error e, fs2) => (Except.error e, fs2)
  | (Except.ok orders, fs2) => (Except.ok (orders.find? (fun o => jsonIdMatches o id)), fs2)

/-! Typed record layer.  The store functions are typed over WorkOrder
objects; this mirrors workOrderStore.ts for well-formed collections. -/

/-- A work order record (workOrderStore.ts lines 5-12).  Priority and status
are string-valued union types in the source; they are kept as strings here
and constrained by the validation layer. -/
structure WorkOrder where
  id : String
  title : String
  description : String
  priority : String
  status : String
  updatedAt : String
deriving Repr, DecidableEq

/-- Input to create: a work order without id and updatedAt. -/
structure CreateInput where
  title : String
  description : String
  priority : String
  status : String
deriving Repr, DecidableEq

/-- A partial update payload as the store update receives it at runtime: any
subset of the record fields may be present.  The id and updatedAt components
model values a caller might supply; the store never consults them. -/
structure UpdatePatch where
  id : Option String
  title : Option String
  description : Option String
  priority : Option String
  status : Option String
  updatedAt : Option String
deriving Repr, DecidableEq

/-- The empty patch: no field provided. -/
def UpdatePatch.empty : UpdatePatch :=
  ⟨none, none, none, none, none, none⟩

/-- Models getById (workOrderStore.ts lines 59-62): linear find for the
first record with a matching id, absent otherwise. -/
def getById (orders : List WorkOrder) (id : String) : Option WorkOrder :=
  orders.find? (fun o => o.id == id)

/-- Models create (workOrderStore.ts lines 68-83).  The generated uuid and
the clock reading are explicit arguments.  The new record is appended and the
whole collection written back; the new record is returned. -/
def create (orders : List WorkOrder) (input : CreateInput) (newId now : String) :
    WorkOrder × List WorkOrder :=
  let newOrder : WorkOrder :=
    ⟨newId, input.title, input.description, input.priority, input.status, now⟩
  (newOrder, orders ++ [newOrder])

/-- Models the merged record built by update (workOrderStore.ts lines
101-106): spread of the existing record, then the patch, then id and a fresh
updatedAt are written last, so the patch values for id and updatedAt are
never consulted. -/
def mergeUpdate (old : WorkOrder) (updates : UpdatePatch) (id now : String) : WorkOrder :=
  ⟨id,
   updates.title.getD old.title,
   updates.description.getD old.description,
   updates.priority.getD old.priority,
   updates.status.getD old.status,
   now⟩

/-- Models update (workOrderStore.ts lines 90-112): findIndex locates the
first record with a matching id; if absent the call returns null without
writing; otherwise the record at that index is replaced by the merge and the
collection written back.  Written as first-match replacement recursion. -/
def update : List WorkOrder → String → UpdatePatch → String →
    Option WorkOrder × List WorkOrder
  | [], _, _, _ => (none, [])
  | o :: rest, id, updates, now =>
    if o.id == id then
      let updated := mergeUpdate o updates id now
      (some updated, updated :: rest)
    else
      let r := update rest id updates now
      (r.1, o :: r.2)

/-- Models remove (workOrderStore.ts lines 118-129): filter out the matching
id; if the length is unchanged return false without writing, otherwise write
the filtered collection and return true. -/
def remove (orders : List WorkOrder) (id : String) : Bool × List WorkOrder :=
  let filteredOrders := orders.filter (fun o => o.id != id)
  if filteredOrders.length == orders.length then
    (false, orders)
  else
    (true, filteredOrders)

/-! Service layer (part_000): Zod-schema validation in front of the store.
The repository uses Zod 4.1.12. -/

/-- Errors the service layer can raise, by kind. -/
inductive ServiceErr where
  | invalidIdentifier (msg : String) : ServiceErr
  | validationFailed (issues : List (String × String)) : ServiceErr
  | storeFailure (e : StoreErr) : ServiceErr
deriving Repr, DecidableEq

/-- Hexadecimal digit, either case. -/
def isHexDigit (c : Char) : Bool :=
  c.isDigit || ( 'a' ≤ c && c ≤ 'f' ) || ( 'A' ≤ c && c ≤ 'F' )

/-- Character admitted at position i of a 36-character uuid by the Zod 4 uuid
regular expression: hyphens at positions 8, 13, 18, 23; a version digit 1-8
at position 14; a variant character 8, 9, a, b, A or B at position 19; a hex
digit everywhere else. -/
def uuidCharOk (i : Nat) (c : Char) : Bool :=
  if i == 8 || i == 13 || i == 18 || i == 23 then c == '-'
  else if i == 14 then '1' ≤ c && c ≤ '8'
  else if i == 19 then
    c == '8' || c == '9' || c == 'a' || c == 'b' || c == 'A' || c == 'B'
  else isHexDigit c

/-- Models the Zod 4 uuid pattern used by z.string().uuid(): the nil uuid,
the max uuid, or a 36-character string matching the grouped hex shape. -/
def isValidUuid (s : String) : Bool :=
  s == "00000000-0000-0000-0000-000000000000" ||
  s == "ffffffff-ffff-ffff-ffff-ffffffffffff" ||
  (s.length == 36 && s.toList.enum.all (fun p => uuidCharOk p.1 p.2))

/-- Models workOrderIdSchema (part_000 line 23): a valid uuid, and nonempty. -/
def workOrderIdOk (s : String) : Bool :=
  isValidUuid s && decide (1 ≤ s.length)

/-- Issues raised by titleSchema: length checked against 2 and 80 before the
trailing trim transform. -/
def titleIssues (t : String) : List (String × String) :=
  (if t.length < 2 then [("title", "Title must be at least 2 characters")] else []) ++
  (if 80 < t.length then [("title", "Title must not exceed 80 characters")] else [])

/-- Issues raised by descriptionSchema: length checked against 10 and 500
before the trailing trim transform. -/
def descriptionIssues (d : String) : List (String × String) :=
  (if d.length < 10 then [("description", "Description must be at least 10 characters")] else []) ++
  (if 500 < d.length then [("description", "Description must not exceed 500 characters")] else [])

/-- Issues raised by prioritySchema: the value must be Low, Medium or High. -/
def priorityIssues (p : String) : List (String × String) :=
  if p == "Low" || p == "Medium" || p == "High" then []
  else [("priority", "Invalid enum value")]

/-- Issues raised by statusSchema: the value must be Open, In Progress or
Done. -/
def statusIssues (s : String) : List (String × String) :=
  if s == "Open" || s == "In Progress" || s == "Done" then []
  else [("status", "Invalid enum value")]

/-- Raw creation payload as seen by createWorkOrderSchema: four string
fields. -/
structure CreateRaw where
  title : String
  description : String
  priority : String
  status : String
deriving Repr, DecidableEq

/-- Models createWorkOrderSchema.parse (part_000 lines 59-64): issues are
collected across all four fields; on success the title and description are
trimmed by the trailing trim transform. -/
def validateCreate (input : CreateRaw) : Except (List (String × String)) CreateInput :=
  let issues := titleIssues input.title ++ descriptionIssues input.description ++
    priorityIssues input.priority ++ statusIssues input.status
  if issues.isEmpty then
    Except.ok ⟨input.title.trim, input.description.trim, input.priority, input.status⟩
  else
    Except.error issues

/-- Models create_work_order (part_000 lines 154-176): validate the payload,
then delegate to the store create. -/
def create_work_order (orders : List WorkOrder) (input : CreateRaw) (newId now : String) :
    Except ServiceErr (WorkOrder × List WorkOrder) :=
  match validateCreate input with
  | Except.error issues => Except.error (ServiceErr.validationFailed issues)
  | Except.ok v => Except.ok (create orders v newId now)

/-- Raw update payload as seen by updateWorkOrderSchema: every field
optional, an optional updatedAt, and the keys outside the schema, which the
strict object rejects. -/
structure UpdateRaw where
  title : Option String
  description : Option String
  priority : Option String
  status : Option String
  updatedAt : Option String
  unknownKeys : List String
deriving Repr, DecidableEq

/-- The empty update payload: zero fields provided. -/
def UpdateRaw.empty : UpdateRaw :=
  ⟨none, none, none, none, none, []⟩

/-- Models updateWorkOrderSchema.parse (part_000 lines 70-76): each provided
field is checked by its field schema, an absent field raises nothing, any
updatedAt string passes, and unknown keys are rejected by strict. -/
def updateIssues (p : UpdateRaw) : List (String × String) :=
  (match p.title with | none => [] | some t => titleIssues t) ++
  (match p.description with | none => [] | some d => descriptionIssues d) ++
  (match p.priority with | none => [] | some v => priorityIssues v) ++
  (match p.status with | none => [] | some v => statusIssues v) ++
  (if p.unknownKeys.isEmpty then [] else [("", "Unrecognized keys in object")])

/-- Validation step of update_work_order: the payload passes when no issue
is raised. -/
def validateUpdate (p : UpdateRaw) : Except (List (String × String)) UpdateRaw :=
  if (updateIssues p).isEmpty then Except.ok p else Except.error (updateIssues p)

/-- Models update_work_order (part_000 lines 201-242): validate the id, then
the payload; check existence via getById and return absent without mutating
when missing; otherwise strip updatedAt from the validated payload and
delegate to the store update. -/
def update_work_order (orders : List WorkOrder) (id : String) (p : UpdateRaw) (now : String) :
    Except ServiceErr (Option WorkOrder × List WorkOrder) :=
  if workOrderIdOk id then
    match validateUpdate p with
    | Except.error issues => Except.error (ServiceErr.validationFailed issues)
    | Except.ok v =>
      match getById orders id with
      | none => Except.ok (none, orders)
      | some _ =>
        Except.ok (update orders id ⟨none, v.title, v.description, v.priority, v.status, none⟩ now)
  else
    Except.error (ServiceErr.invalidIdentifier "Invalid work order ID")

/-- Models get_work_order (part_000 lines 115-133): validate the id before
any store access, failing without touching the file; on a valid id delegate
to the file-level lookup, wrapping store errors. -/
def get_work_order (fs : FileState) (id : String) :
    Except ServiceErr (Option Json) × FileState :=
  if workOrderIdOk id then
    ((getByIdFile fs id).1.mapError ServiceErr.storeFailure, (getByIdFile fs id).2)
  else
    (Except.error (ServiceErr.invalidIdentifier "Invalid work order ID"), fs)

/-! Auxiliary definitions for stating and witnessing the properties. -/

/-- Lexicographic order on character lists, as JS compares strings; on ISO
8601 timestamp strings of equal layout this is the chronological order. -/
def charListLt : List Char → List Char → Bool
  | [], [] => false
  | [], _ :: _ => true
  | _ :: _, [] => false
  | a :: as, b :: bs => if a < b then true else if b < a then false else charListLt as bs

/-- Timestamp order: strict lexicographic comparison of the two strings. -/
def tsLt (a b : String) : Bool :=
  charListLt a.toList b.toList

/-- A concrete well-formed work order used to witness the theorems. -/
def w0 : WorkOrder :=
  ⟨"123e4567-e89b-12d3-a456-426614174000", "Fix HVAC",
   "Repair the air conditioning unit thoroughly", "High", "Open",
   "2024-01-15T10:30:00.000Z"⟩

/-- A second concrete work order with a distinct id. -/
def w1 : WorkOrder :=
  ⟨"6253242b-78ee-4dbf-8461-a600fece75ca", "HVAC Maintenance",
   "Perform routine maintenance on the unit", "Low", "Done",
   "2024-01-10T08:00:00.000Z"⟩

/-! Helper lemmas. -/

theorem isEmpty_false_of_ne_nil {α : Type} {l : List α} (h : l ≠ []) :
    l.isEmpty = false := by
  cases l with
  | nil => exact absurd rfl h
  | cons a as => rfl

theorem getById_cons (o : WorkOrder) (rest : List WorkOrder) (id : String) :
    getById (o :: rest) id = if o.id == id then some o else getById rest id := by
  cases hp : o.id == id <;> simp [getById, List.find?_cons, hp]

theorem update_found (orders : List WorkOrder) (id : String) (updates : UpdatePatch)
    (now : String) (old : WorkOrder) (h : getById orders id = some old) :
    old.id = id ∧
      (update orders id updates now).1 = some (mergeUpdate old updates id now) := by
  induction orders with
  | nil => simp [getById, List.find?] at h
  | cons o rest ih =>
    rw [getById_cons] at h
    cases hp : o.id == id with
    | true =>
      rw [hp] at h
      simp at h
      subst h
      refine ⟨by simpa using hp, ?_⟩
      simp [update, hp]
    | false =>
      rw [hp] at h
      simp at h
      obtain ⟨h1, h2⟩ := ih h
      exact ⟨h1, by simp [update, hp, h2]⟩

/-! Claim theorems. -/

/-- C1: the claim says a backing file parsing to a non-array JSON value is
self-healed to an empty collection; the code instead raises a plain error in
that case, which the recovery clause does not catch, so it propagates.  This
theorem evaluates the store read at such a failing input: a file holding an
empty JSON object. -/
theorem readWorkOrders_nonArray_error_propagates :
    readWorkOrders (FileState.stored (Json.obj [])) =
      (Except.error StoreErr.invalidFormat, FileState.stored (Json.obj [])) := rfl

/-- C10: whenever the backing file parses to a JSON array, the store returns
the parsed elements verbatim, with no per-element validation, and writes
nothing new. -/
theorem getAll_returns_elements_verbatim (elems : List Json) :
    getAll (FileState.stored (Json.arr elems)) =
      (Except.ok elems, FileState.stored (Json.arr elems)) := rfl

theorem getAll_returns_elements_verbatim_witness :
    getAll (FileState.stored (Json.arr [Json.num 5, Json.null, Json.obj [("foo", Json.bool true)]])) =
      (Except.ok [Json.num 5, Json.null, Json.obj [("foo", Json.bool true)]],
        FileState.stored (Json.arr [Json.num 5, Json.null, Json.obj [("foo", Json.bool true)]])) :=
  getAll_returns_elements_verbatim [Json.num 5, Json.null, Json.obj [("foo", Json.bool true)]]

/-- C9: on an id that is not a syntactically valid uuid, the service get
fails with an invalid-identifier error and leaves the file untouched, even a
missing file that a store access would have self-healed; on a valid uuid it
delegates to the store lookup, returning the record or absent. -/
theorem get_work_order_id_validation :
    (∀ (fs : FileState) (id : String), workOrderIdOk id = false →
      get_work_order fs id =
        (Except.error (ServiceErr.invalidIdentifier "Invalid work order ID"), fs)) ∧
    (∀ (fs : FileState) (id : String), workOrderIdOk id = true →
      get_work_order fs id =
        ((getByIdFile fs id).1.mapError ServiceErr.storeFailure, (getByIdFile fs id).2)) := by
  constructor
  · intro fs id h
    simp [get_work_order, h]
  · intro fs id h
    simp [get_work_order, h]

theorem get_work_order_id_validation_witness :
    get_work_order FileState.missing "work-order-1" =
      (Except.error (ServiceErr.invalidIdentifier "Invalid work order ID"), FileState.missing) ∧
    get_work_order FileState.missing "123e4567-e89b-12d3-a456-426614174000" =
      ((getByIdFile FileState.missing "123e4567-e89b-12d3-a456-426614174000").1.mapError
          ServiceErr.storeFailure,
        (getByIdFile FileState.missing "123e4567-e89b-12d3-a456-426614174000").2) :=
  ⟨get_work_order_id_validation.1 FileState.missing "work-order-1" (by decide),
   get_work_order_id_validation.2 FileState.missing "123e4567-e89b-12d3-a456-426614174000"
     (by decide)⟩

/-- C2: a successful update changes exactly the provided fields and
updatedAt: each patched field takes its patch value, each unpatched field
keeps its previous value, and the id is kept even when the payload carries
an id value. -/
theorem update_changes_only_provided_fields (orders : List WorkOrder) (id : String)
    (updates : UpdatePatch) (now : String) (old : WorkOrder)
    (h : getById orders id = some old) :
    ∃ r, (update orders id updates now).1 = some r ∧
      r.id = old.id ∧
      r.title = updates.title.getD old.title ∧
      r.description = updates.description.getD old.description ∧
      r.priority = updates.priority.getD old.priority ∧
      r.status = updates.status.getD old.status ∧
      r.updatedAt = now := by
  obtain ⟨hid, hr⟩ := update_found orders id updates now old h
  exact ⟨mergeUpdate old updates id now, hr, by simp [mergeUpdate, hid], rfl, rfl, rfl, rfl, rfl⟩

theorem update_changes_only_provided_fields_witness :
    ∃ r, (update [w0, w1] w1.id ⟨some "hijacked-id", none, none, some "High", none,
        some "1999-01-01T00:00:00.000Z"⟩ "2024-02-01T09:00:00.000Z").1 = some r ∧
      r.id = w1.id ∧
      r.title = (Option.getD none w1.title) ∧
      r.description = (Option.getD none w1.description) ∧
      r.priority = (Option.getD (some "High") w1.priority) ∧
      r.status = (Option.getD none w1.status) ∧
      r.updatedAt = "2024-02-01T09:00:00.000Z" :=
  update_changes_only_provided_fields [w0, w1] w1.id
    ⟨some "hijacked-id", none, none, some "High", none, some "1999-01-01T00:00:00.000Z"⟩
    "2024-02-01T09:00:00.000Z" w1 (by decide)

/-- C3: an update whose id matches no record returns absent and leaves the
collection unchanged. -/
theorem update_absent_id_no_write (orders : List WorkOrder) (id : String)
    (updates : UpdatePatch) (now : String) (h : getById orders id = none) :
    update orders id updates now = (none, orders) := by
  induction orders with
  | nil => rfl
  | cons o rest ih =>
    rw [getById_cons] at h
    cases hp : o.id == id with
    | true => rw [hp] at h; simp at h
    | false =>
      rw [hp] at h
      simp at h
      simp [update, hp, ih h]

theorem update_absent_id_no_write_witness :
    update [w0] "6253242b-78ee-4dbf-8461-a600fece75ca" UpdatePatch.empty
        "2024-02-01T09:00:00.000Z" = (none, [w0]) :=
  update_absent_id_no_write [w0] "6253242b-78ee-4dbf-8461-a600fece75ca" UpdatePatch.empty
    "2024-02-01T09:00:00.000Z" (by decide)

/-- C4: removing a missing id returns false and leaves the collection
unchanged; removing an existing id returns true and a subsequent lookup is
absent; a second removal of the same id then returns false rather than an
error. -/
theorem remove_found_absent_and_idempotent :
    (∀ (orders : List WorkOrder) (id : String), getById orders id = none →
      remove orders id = (false, orders)) ∧
    (∀ (orders : List WorkOrder) (id : String) (r : WorkOrder), getById orders id = some r →
      (remove orders id).1 = true ∧
      getById (remove orders id).2 id = none ∧
      remove (remove orders id).2 id = (false, (remove orders id).2)) := by
  have absent : ∀ (orders : List WorkOrder) (id : String), getById orders id = none →
      remove orders id = (false, orders) := by
    intro orders id h
    rw [getById] at h
    have hall := List.find?_eq_none.mp h
    have hfilter : orders.filter (fun o => o.id != id) = orders :=
      List.filter_eq_self.mpr (fun a ha => by simp [bne]; simpa using hall a ha)
    simp [remove, hfilter]
  refine ⟨absent, ?_⟩
  intro orders id r h
  rw [getById] at h
  have hmem : r ∈ orders := List.mem_of_find?_eq_some h
  have hpred0 := List.find?_some h
  have hpred : (r.id == id) = true := by simpa using hpred0
  have hlt : (orders.filter (fun o => o.id != id)).length < orders.length :=
    List.length_filter_lt_length_iff_exists.mpr ⟨r, hmem, by simp [bne, hpred]⟩
  have hne : ((orders.filter (fun o => o.id != id)).length == orders.length) = false := by
    simpa using Nat.ne_of_lt hlt
  have hremove : remove orders id = (true, orders.filter (fun o => o.id != id)) := by
    simp [remove, hne]
  have hnone : getById (orders.filter (fun o => o.id != id)) id = none := by
    rw [getById]
    refine List.find?_eq_none.mpr (fun x hx => ?_)
    have := (List.mem_filter.mp hx).2
    simp [bne] at this
    simp [this]
  refine ⟨by rw [hremove], by rw [hremove]; exact hnone, ?_⟩
  rw [hremove]
  exact absent _ _ hnone

theorem remove_found_absent_and_idempotent_witness :
    remove [w0] w1.id = (false, [w0]) ∧
    ((remove [w0, w1] w1.id).1 = true ∧
      getById (remove [w0, w1] w1.id).2 w1.id = none ∧
      remove (remove [w0, w1] w1.id).2 w1.id = (false, (remove [w0, w1] w1.id).2)) :=
  ⟨remove_found_absent_and_idempotent.1 [w0] w1.id (by decide),
   remove_found_absent_and_idempotent.2 [w0, w1] w1.id w1 (by decide)⟩

/-- C5: a lookup of the generated id immediately after create, with no
intervening mutation, returns exactly the record create returned; the
hypothesis states the freshness of the generated uuid, which the store
obtains from uuid v4 generation. -/
theorem getById_after_create (orders : List WorkOrder) (input : CreateInput)
    (newId now : String) (h : ∀ o ∈ orders, o.id ≠ newId) :
    getById (create orders input newId now).2 newId = some (create orders input newId now).1 := by
  have hnone : List.find? (fun o => o.id == newId) orders = none :=
    List.find?_eq_none.mpr (fun x hx => by simp [h x hx])
  simp [create, getById, List.find?_append, hnone, List.find?]

theorem getById_after_create_witness :
    getById (create [w0] ⟨"Replace filter", "Swap the intake filter cartridge", "Medium",
        "Open"⟩ w1.id "2024-02-01T09:00:00.000Z").2 w1.id =
      some (create [w0] ⟨"Replace filter", "Swap the intake filter cartridge", "Medium",
        "Open"⟩ w1.id "2024-02-01T09:00:00.000Z").1 :=
  getById_after_create [w0] ⟨"Replace filter", "Swap the intake filter cartridge", "Medium",
    "Open"⟩ w1.id "2024-02-01T09:00:00.000Z" (by decide)

/-- C8 counterexample: the updatedAt of a record is not strictly increased
by every successful update; an update whose clock reading equals the stored
timestamp, as happens for two mutations within one millisecond, stamps an
equal timestamp. -/
theorem updatedAt_not_strictly_increasing :
    ¬ (∀ (orders : List WorkOrder) (id : String) (updates : UpdatePatch) (now : String)
        (old r : WorkOrder), getById orders id = some old →
        (update orders id updates now).1 = some r →
        tsLt old.updatedAt r.updatedAt = true) := by
  intro hc
  have h := hc [w0] w0.id UpdatePatch.empty w0.updatedAt w0
    (mergeUpdate w0 UpdatePatch.empty w0.id w0.updatedAt) (by decide) (by decide)
  exact absurd h (by decide)

/-- C8 as amended: every successful update stamps updatedAt with the clock
reading of the call, so the timestamp strictly increases exactly when that
reading is strictly newer than the stored one. -/
theorem update_restamps_updatedAt (orders : List WorkOrder) (id : String)
    (updates : UpdatePatch) (now : String) (old : WorkOrder)
    (h : getById orders id = some old) :
    ∃ r, (update orders id updates now).1 = some r ∧ r.updatedAt = now ∧
      (tsLt old.updatedAt now = true → tsLt old.updatedAt r.updatedAt = true) := by
  obtain ⟨_, hr⟩ := update_found orders id updates now old h
  exact ⟨mergeUpdate old updates id now, hr, rfl, fun hlt => hlt⟩

theorem update_restamps_updatedAt_witness :
    ∃ r, (update [w0] w0.id UpdatePatch.empty "2024-01-15T10:30:00.001Z").1 = some r ∧
      r.updatedAt = "2024-01-15T10:30:00.001Z" ∧
      (tsLt w0.updatedAt "2024-01-15T10:30:00.001Z" = true →
        tsLt w0.updatedAt r.updatedAt = true) :=
  update_restamps_updatedAt [w0] w0.id UpdatePatch.empty "2024-01-15T10:30:00.001Z" w0
    (by decide)

/-- C6: creation accepts a title of exactly 2 or exactly 80 characters and a
description of exactly 10 or exactly 500 characters, while a title of 1 or
81 characters, a description of 9 or 501 characters, or a priority or status
outside the enumerated sets fails with a validation error carrying an issue
that names the offending field. -/
theorem create_validation_boundaries :
    (∀ (input : CreateRaw) (orders : List WorkOrder) (newId now : String),
      (input.title.length = 2 ∨ input.title.length = 80) →
      (input.description.length = 10 ∨ input.description.length = 500) →
      (input.priority = "Low" ∨ input.priority = "Medium" ∨ input.priority = "High") →
      (input.status = "Open" ∨ input.status = "In Progress" ∨ input.status = "Done") →
      create_work_order orders input newId now =
        Except.ok (create orders ⟨input.title.trim, input.description.trim, input.priority,
          input.status⟩ newId now)) ∧
    (∀ (input : CreateRaw) (orders : List WorkOrder) (newId now : String),
      (input.title.length = 1 ∨ input.title.length = 81) →
      ∃ issues, create_work_order orders input newId now =
        Except.error (ServiceErr.validationFailed issues) ∧
        ∃ msg, ("title", msg) ∈ issues) ∧
    (∀ (input : CreateRaw) (orders : List WorkOrder) (newId now : String),
      (input.description.length = 9 ∨ input.description.length = 501) →
      ∃ issues, create_work_order orders input newId now =
        Except.error (ServiceErr.validationFailed issues) ∧
        ∃ msg, ("description", msg) ∈ issues) ∧
    (∀ (input : CreateRaw) (orders : List WorkOrder) (newId now : String),
      input.priority ≠ "Low" → input.priority ≠ "Medium" → input.priority ≠ "High" →
      ∃ issues, create_work_order orders input newId now =
        Except.error (ServiceErr.validationFailed issues) ∧
        ∃ msg, ("priority", msg) ∈ issues) ∧
    (∀ (input : CreateRaw) (orders : List WorkOrder) (newId now : String),
      input.status ≠ "Open" → input.status ≠ "In Progress" → input.status ≠ "Done" →
      ∃ issues, create_work_order orders input newId now =
        Except.error (ServiceErr.validationFailed issues) ∧
        ∃ msg, ("status", msg) ∈ issues) := by
  refine ⟨?_, ?_, ?_, ?_, ?_⟩
  · intro input orders newId now ht hd hp hs
    have h1 : titleIssues input.title = [] := by
      rcases ht with h | h <;> simp [titleIssues, h]
    have h2 : descriptionIssues input.description = [] := by
      rcases hd with h | h <;> simp [descriptionIssues, h]
    have h3 : priorityIssues input.priority = [] := by
      rcases hp with h | h | h <;> simp [priorityIssues, h]
    have h4 : statusIssues input.status = [] := by
      rcases hs with h | h | h <;> simp [statusIssues, h]
    simp [create_work_order, validateCreate, h1, h2, h3, h4]
  · intro input orders newId now ht
    rcases ht with h | h
    · have h1 : titleIssues input.title = [("title", "Title must be at least 2 characters")] := by
        simp [titleIssues, h]
      refine ⟨titleIssues input.title ++ descriptionIssues input.description ++
        priorityIssues input.priority ++ statusIssues input.status, ?_,
        "Title must be at least 2 characters", ?_⟩
      · simp [create_work_order, validateCreate, h1]
      · simp [List.mem_append, h1]
    · have h1 : titleIssues input.title = [("title", "Title must not exceed 80 characters")] := by
        simp [titleIssues, h]
      refine ⟨titleIssues input.title ++ descriptionIssues input.description ++
        priorityIssues input.priority ++ statusIssues input.status, ?_,
        "Title must not exceed 80 characters", ?_⟩
      · simp [create_work_order, validateCreate, h1]
      · simp [List.mem_append, h1]
  · intro input orders newId now hd
    rcases hd with h | h
    · have h1 : descriptionIssues input.description =
          [("description", "Description must be at least 10 characters")] := by
        simp [descriptionIssues, h]
      refine ⟨titleIssues input.title ++ descriptionIssues input.description ++
        priorityIssues input.priority ++ statusIssues input.status, ?_,
        "Description must be at least 10 characters", ?_⟩
      · simp [create_work_order, validateCreate, h1]
      · simp [List.mem_append, h1]
    · have h1 : descriptionIssues input.description =
          [("description", "Description must not exceed 500 characters")] := by
        simp [descriptionIssues, h]
      refine ⟨titleIssues input.title ++ descriptionIssues input.description ++
        priorityIssues input.priority ++ statusIssues input.status, ?_,
        "Description must not exceed 500 characters", ?_⟩
      · simp [create_work_order, validateCreate, h1]
      · simp [List.mem_append, h1]
  · intro input orders newId now hp1 hp2 hp3
    have h1 : priorityIssues input.priority = [("priority", "Invalid enum value")] := by
      simp [priorityIssues, hp1, hp2, hp3]
    refine ⟨titleIssues input.title ++ descriptionIssues input.description ++
      priorityIssues input.priority ++ statusIssues input.status, ?_, "Invalid enum value", ?_⟩
    · simp [create_work_order, validateCreate, h1]
    · simp [List.mem_append, h1]
  · intro input orders newId now hs1 hs2 hs3
    have h1 : statusIssues input.status = [("status", "Invalid enum value")] := by
      simp [statusIssues, hs1, hs2, hs3]
    refine ⟨titleIssues input.title ++ descriptionIssues input.description ++
      priorityIssues input.priority ++ statusIssues input.status, ?_, "Invalid enum value", ?_⟩
    · simp [create_work_order, validateCreate, h1]
    · simp [List.mem_append, h1]

theorem create_validation_boundaries_witness :
    (create_work_order [] ⟨"ab", "abcdefghij", "Low", "Open"⟩
        "123e4567-e89b-12d3-a456-426614174000" "2024-02-01T09:00:00.000Z" =
      Except.ok (create [] ⟨"ab".trim, "abcdefghij".trim, "Low", "Open"⟩
        "123e4567-e89b-12d3-a456-426614174000" "2024-02-01T09:00:00.000Z")) ∧
    (∃ issues, create_work_order [] ⟨"a", "abcdefghij", "Low", "Open"⟩
        "123e4567-e89b-12d3-a456-426614174000" "2024-02-01T09:00:00.000Z" =
      Except.error (ServiceErr.validationFailed issues) ∧ ∃ msg, ("title", msg) ∈ issues) ∧
    (∃ issues, create_work_order [] ⟨"ab", "abcdefghi", "Low", "Open"⟩
        "123e4567-e89b-12d3-a456-426614174000" "2024-02-01T09:00:00.000Z" =
      Except.error (ServiceErr.validationFailed issues) ∧ ∃ msg, ("description", msg) ∈ issues) ∧
    (∃ issues, create_work_order [] ⟨"ab", "abcdefghij", "Urgent", "Open"⟩
        "123e4567-e89b-12d3-a456-426614174000" "2024-02-01T09:00:00.000Z" =
      Except.error (ServiceErr.validationFailed issues) ∧ ∃ msg, ("priority", msg) ∈ issues) ∧
    (∃ issues, create_work_order [] ⟨"ab", "abcdefghij", "Low", "Closed"⟩
        "123e4567-e89b-12d3-a456-426614174000" "2024-02-01T09:00:00.000Z" =
      Except.error (ServiceErr.validationFailed issues) ∧ ∃ msg, ("status", msg) ∈ issues) :=
  ⟨create_validation_boundaries.1 ⟨"ab", "abcdefghij", "Low", "Open"⟩ []
      "123e4567-e89b-12d3-a456-426614174000" "2024-02-01T09:00:00.000Z"
      (Or.inl (by decide)) (Or.inl (by decide)) (Or.inl rfl) (Or.inl rfl),
   create_validation_boundaries.2.1 ⟨"a", "abcdefghij", "Low", "Open"⟩ []
      "123e4567-e89b-12d3-a456-426614174000" "2024-02-01T09:00:00.000Z" (Or.inl (by decide)),
   create_validation_boundaries.2.2.1 ⟨"ab", "abcdefghi", "Low", "Open"⟩ []
      "123e4567-e89b-12d3-a456-426614174000" "2024-02-01T09:00:00.000Z" (Or.inl (by decide)),
   create_validation_boundaries.2.2.2.1 ⟨"ab", "abcdefghij", "Urgent", "Open"⟩ []
      "123e4567-e89b-12d3-a456-426614174000" "2024-02-01T09:00:00.000Z"
      (by decide) (by decide) (by decide),
   create_validation_boundaries.2.2.2.2 ⟨"ab", "abcdefghij", "Low", "Closed"⟩ []
      "123e4567-e89b-12d3-a456-426614174000" "2024-02-01T09:00:00.000Z"
      (by decide) (by decide) (by decide)⟩

/-- C7 counterexample: an update payload providing zero fields passes the
schema: on a syntactically valid id and an existing record the service
update succeeds, merely re-stamping updatedAt, instead of failing with a
validation error. -/
theorem update_empty_patch_accepted :
    workOrderIdOk "123e4567-e89b-12d3-a456-426614174000" = true ∧
    update_work_order [w0] "123e4567-e89b-12d3-a456-426614174000" UpdateRaw.empty
        "2024-01-15T10:30:00.001Z" =
      Except.ok (some ⟨"123e4567-e89b-12d3-a456-426614174000", "Fix HVAC",
          "Repair the air conditioning unit thoroughly", "High", "Open",
          "2024-01-15T10:30:00.001Z"⟩,
        [⟨"123e4567-e89b-12d3-a456-426614174000", "Fix HVAC",
          "Repair the air conditioning unit thoroughly", "High", "Open",
          "2024-01-15T10:30:00.001Z"⟩]) := by
  exact ⟨by decide, rfl⟩

/-- C7 as amended: an update with zero provided fields is accepted by the
schema, so for every syntactically valid id the service update returns a
non-error result: absent when the record is missing, the re-stamped record
otherwise. -/
theorem update_empty_patch_no_validation_error (orders : List WorkOrder) (id now : String)
    (h : workOrderIdOk id = true) :
    ∃ result, update_work_order orders id UpdateRaw.empty now = Except.ok result := by
  cases hg : getById orders id with
  | none =>
    exact ⟨(none, orders),
      by simp [update_work_order, h, validateUpdate, updateIssues, UpdateRaw.empty, hg]⟩
  | some w =>
    exact ⟨update orders id ⟨none, none, none, none, none, none⟩ now,
      by simp [update_work_order, h, validateUpdate, updateIssues, UpdateRaw.empty, hg]⟩

theorem update_empty_patch_no_validation_error_witness :
    ∃ result, update_work_order [w0] "6253242b-78ee-4dbf-8461-a600fece75ca" UpdateRaw.empty
        "2024-02-01T09:00:00.000Z" = Except.ok result :=
  update_empty_patch_no_validation_error [w0] "6253242b-78ee-4dbf-8461-a600fece75ca"
    "2024-02-01T09:00:00.000Z" (by decide)

end WorkOrders
